import Mathlib

/-!
# Shallow embedding of the Yippee embedder shim (src/src/app.rs)

The program is a bidirectional event-translation adapter between the winit
windowing library and the Servo engine.  Its persistent state is the
`Yippee` struct: an optional engine handle, an optional browser id, a queue
of pending outbound embedder events, the last known pointer position and a
small lifecycle status enum.

Modelling conventions:
* `f64`/`f32` scalars are modelled as `ℚ`; the `as f32` narrowing casts are
  treated as exact, the `as i32` cast is modelled by truncation toward zero
  (`ratTrunc`), matching Rust `as` semantics on in-range values.
* External collaborators (the Servo engine, the winit window/webview) are
  opaque.  Inputs coming from them (the message batch returned by
  `servo.get_events()`, the boolean returned by `servo.handle_events(..)`,
  the window scale factor, `webview.is_animating()`) are parameters, and
  outbound calls to them are recorded in an `ExternalCall` trace.
* The per-iteration pump `run` composes `set_control_flow`,
  `handle_winit_event` and `handle_servo_messages` exactly as the source.
-/

namespace Yippee

/-- winit `PhysicalPosition<f64>`; coordinates as ℚ. -/
structure PhysicalPosition where
  x : ℚ
  y : ℚ
deriving DecidableEq, Repr

/-- winit `MouseButton`.  `Other` carries the `u16` code of the catch-all arm. -/
inductive WinitMouseButton
  | Left
  | Right
  | Middle
  | Back
  | Forward
  | Other (code : Nat)
deriving DecidableEq, Repr

/-- winit `ElementState`. -/
inductive ElementState
  | Pressed
  | Released
deriving DecidableEq, Repr

/-- winit `TouchPhase`. -/
inductive TouchPhase
  | Started
  | Moved
  | Ended
  | Cancelled
deriving DecidableEq, Repr

/-- winit `MouseScrollDelta`. -/
inductive MouseScrollDelta
  | LineDelta (x y : ℚ)
  | PixelDelta (position : PhysicalPosition)
deriving DecidableEq, Repr

/-- The winit window events matched by `handle_winit_event`; `Unsupported`
stands for every other window event (the logging catch-all arm). -/
inductive WindowEvent
  | RedrawRequested
  | Resized (width height : Nat)
  | CursorMoved (position : PhysicalPosition)
  | MouseInput (state : ElementState) (button : WinitMouseButton)
  | TouchpadMagnify (delta : ℚ)
  | MouseWheel (delta : MouseScrollDelta) (phase : TouchPhase)
  | CloseRequested
  | Unsupported
deriving DecidableEq, Repr

/-- The winit top-level `Event<()>`; `UserEvent` is the wake event
`Event::UserEvent(())`, and `Unsupported` is the logging catch-all arm. -/
inductive Event
  | Suspended
  | Resumed
  | UserEvent
  | WindowEvent (event : WindowEvent)
  | Unsupported
deriving DecidableEq, Repr

/-- Servo `script_traits::MouseButton` (the variants the shim produces). -/
inductive ServoMouseButton
  | Left
  | Right
  | Middle
deriving DecidableEq, Repr

/-- Servo `WheelMode`. -/
inductive WheelMode
  | DeltaLine
  | DeltaPixel
deriving DecidableEq, Repr

/-- Servo `WheelDelta`. -/
structure WheelDelta where
  x : ℚ
  y : ℚ
  z : ℚ
  mode : WheelMode
deriving DecidableEq, Repr

/-- Servo `TouchEventType`. -/
inductive TouchEventType
  | Down
  | Move
  | Up
  | Cancel
deriving DecidableEq, Repr

/-- webrender `DeviceIntPoint` (`i32` coordinates). -/
structure DeviceIntPoint where
  x : Int
  y : Int
deriving DecidableEq, Repr

/-- webrender `ScrollLocation` (only the `Delta` variant is constructed). -/
inductive ScrollLocation
  | Delta (x y : ℚ)
deriving DecidableEq, Repr

/-- Servo `MouseWindowEvent`. -/
inductive MouseWindowEvent
  | Click (button : ServoMouseButton) (position : PhysicalPosition)
  | MouseDown (button : ServoMouseButton) (position : PhysicalPosition)
  | MouseUp (button : ServoMouseButton) (position : PhysicalPosition)
deriving DecidableEq, Repr

/-- The Servo `EmbedderEvent` variants the shim pushes onto its queue. -/
inductive EmbedderEvent
  | Idle
  | Resize
  | Quit
  | MouseWindowMoveEventClass (point : PhysicalPosition)
  | MouseWindowEventClass (event : MouseWindowEvent)
  | Zoom (magnification : ℚ)
  | Wheel (delta : WheelDelta) (point : PhysicalPosition)
  | Scroll (location : ScrollLocation) (point : DeviceIntPoint) (phase : TouchEventType)
  | SelectBrowser (id : Nat)
  | AllowNavigationResponse (pipelineId : Nat) (allow : Bool)
deriving DecidableEq, Repr

/-- Servo `embedder_traits::Cursor` — the variants named in the
`SetCursor` table; `Other` stands for the wildcard `_` arm. -/
inductive Cursor
  | Default
  | Pointer
  | ContextMenu
  | Help
  | Progress
  | Wait
  | Cell
  | Crosshair
  | Text
  | VerticalText
  | Alias
  | Copy
  | Move
  | NoDrop
  | NotAllowed
  | Grab
  | Grabbing
  | EResize
  | NResize
  | NeResize
  | NwResize
  | SResize
  | SeResize
  | SwResize
  | WResize
  | EwResize
  | NsResize
  | NeswResize
  | NwseResize
  | ColResize
  | RowResize
  | AllScroll
  | ZoomIn
  | ZoomOut
  | Other
deriving DecidableEq, Repr

/-- winit `CursorIcon` — the targets of the `SetCursor` table. -/
inductive CursorIcon
  | Default
  | Pointer
  | ContextMenu
  | Help
  | Progress
  | Wait
  | Cell
  | Crosshair
  | Text
  | VerticalText
  | Alias
  | Copy
  | Move
  | NoDrop
  | NotAllowed
  | Grab
  | Grabbing
  | EResize
  | NResize
  | NeResize
  | NwResize
  | SResize
  | SeResize
  | SwResize
  | WResize
  | EwResize
  | NsResize
  | NeswResize
  | NwseResize
  | ColResize
  | RowResize
  | AllScroll
  | ZoomIn
  | ZoomOut
deriving DecidableEq, Repr

/-- The Servo `EmbedderMsg` variants matched by `handle_servo_messages`;
`Unsupported` stands for the logging catch-all arm.  The ignored `_url`
argument of `AllowNavigationRequest` is dropped. -/
inductive EmbedderMsg
  | BrowserCreated (id : Nat)
  | ReadyToPresent
  | LoadStart
  | LoadComplete
  | SetCursor (cursor : Cursor)
  | AllowNavigationRequest (pipelineId : Nat)
  | CloseBrowser
  | Shutdown
  | Unsupported
deriving DecidableEq, Repr

/-- Status of the webview (src/src/app.rs lines 28-39). -/
inductive Status
  | None
  | LoadStart
  | LoadComplete
  | Shutdown
deriving DecidableEq, Repr

/-- winit `ControlFlow` (the two values the shim sets). -/
inductive ControlFlow
  | Wait
  | Poll
deriving DecidableEq, Repr

/-- Outbound calls to the external collaborators (Servo engine, webview,
winit event loop), recorded as a trace. -/
inductive ExternalCall
  | SetControlFlow (flow : ControlFlow)
  | Recomposite
  | Present
  | WebViewResize (width height : Int)
  | SetCursorIcon (icon : CursorIcon)
  | HandleEvents (events : List EmbedderEvent)
  | RepaintSynchronously
  | RequestRedraw
  | Deinit
deriving DecidableEq, Repr

/-- The adapter state: the fields of the `Yippee` struct.  The engine handle
`servo` is opaque, so it is modelled as `Option Unit`; the `webview` field is
an external object whose observable interactions appear in the trace. -/
structure State where
  servo : Option Unit
  browser_id : Option Nat
  events : List EmbedderEvent
  mouse_position : PhysicalPosition
  status : Status
deriving DecidableEq, Repr

/-- The `Yippee { .. }` literal built at the end of `Yippee::new`:
engine handle present, no browser id, empty queue, default (0,0) pointer
position, status `None`. -/
def initState : State :=
  { servo := some ()
    browser_id := none
    events := []
    mouse_position := ⟨0, 0⟩
    status := Status.None }

/-- Embedding of `Yippee::set_control_flow`: `Wait` when the webview is not animating or
the event is `Suspended`, else `Poll`.  `animating` is
`webview.is_animating()`. -/
def set_control_flow (animating : Bool) (event : Event) : ControlFlow :=
  if animating = false ∨ event = Event.Suspended then ControlFlow.Wait
  else ControlFlow.Poll

/-- The `match button` table inside the `MouseInput` arm: `none` models the
`_ => { log::warn!(..); return; }` arm. -/
def winitButtonToServo : WinitMouseButton → Option ServoMouseButton
  | WinitMouseButton.Left => some ServoMouseButton.Left
  | WinitMouseButton.Right => some ServoMouseButton.Right
  | WinitMouseButton.Middle => some ServoMouseButton.Middle
  | _ => none

/-- The `(x, y, mode)` scroll-delta computation of the `MouseWheel` arm:
`LineDelta` multiplies the vertical component by `LINE_HEIGHT = 38.0`;
`PixelDelta` converts the physical position to logical coordinates by
dividing by the window scale factor. -/
def wheelDeltaOf (scale_factor : ℚ) : MouseScrollDelta → ℚ × ℚ × WheelMode
  | MouseScrollDelta.LineDelta x y => (x, y * 38, WheelMode.DeltaLine)
  | MouseScrollDelta.PixelDelta position =>
      (position.x / scale_factor, position.y / scale_factor, WheelMode.DeltaPixel)

/-- The `match phase` table of the `MouseWheel` arm. -/
def touchPhaseToType : TouchPhase → TouchEventType
  | TouchPhase.Started => TouchEventType.Down
  | TouchPhase.Moved => TouchEventType.Move
  | TouchPhase.Ended => TouchEventType.Up
  | TouchPhase.Cancelled => TouchEventType.Cancel

/-- Truncation toward zero of a rational, modelling Rust `f64 as i32`
(on in-range values). -/
def ratTrunc (q : ℚ) : Int :=
  Int.tdiv q.num q.den

/-- The `SetCursor` translation table (servo cursor → winit cursor icon);
the wildcard arm maps to `Default`. -/
def cursorToIcon : Cursor → CursorIcon
  | Cursor.Default => CursorIcon.Default
  | Cursor.Pointer => CursorIcon.Pointer
  | Cursor.ContextMenu => CursorIcon.ContextMenu
  | Cursor.Help => CursorIcon.Help
  | Cursor.Progress => CursorIcon.Progress
  | Cursor.Wait => CursorIcon.Wait
  | Cursor.Cell => CursorIcon.Cell
  | Cursor.Crosshair => CursorIcon.Crosshair
  | Cursor.Text => CursorIcon.Text
  | Cursor.VerticalText => CursorIcon.VerticalText
  | Cursor.Alias => CursorIcon.Alias
  | Cursor.Copy => CursorIcon.Copy
  | Cursor.Move => CursorIcon.Move
  | Cursor.NoDrop => CursorIcon.NoDrop
  | Cursor.NotAllowed => CursorIcon.NotAllowed
  | Cursor.Grab => CursorIcon.Grab
  | Cursor.Grabbing => CursorIcon.Grabbing
  | Cursor.EResize => CursorIcon.EResize
  | Cursor.NResize => CursorIcon.NResize
  | Cursor.NeResize => CursorIcon.NeResize
  | Cursor.NwResize => CursorIcon.NwResize
  | Cursor.SResize => CursorIcon.SResize
  | Cursor.SeResize => CursorIcon.SeResize
  | Cursor.SwResize => CursorIcon.SwResize
  | Cursor.WResize => CursorIcon.WResize
  | Cursor.EwResize => CursorIcon.EwResize
  | Cursor.NsResize => CursorIcon.NsResize
  | Cursor.NeswResize => CursorIcon.NeswResize
  | Cursor.NwseResize => CursorIcon.NwseResize
  | Cursor.ColResize => CursorIcon.ColResize
  | Cursor.RowResize => CursorIcon.RowResize
  | Cursor.AllScroll => CursorIcon.AllScroll
  | Cursor.ZoomIn => CursorIcon.ZoomIn
  | Cursor.ZoomOut => CursorIcon.ZoomOut
  | Cursor.Other => CursorIcon.Default

/-- Embedding of `Yippee::handle_winit_event` (src/src/app.rs lines 109-229): translates
one winit event into queued embedder events, updating the pointer position
on `CursorMoved`.  Returns the new state and the trace of external calls
(`servo.recomposite()`, `servo.present()`, `webview.resize(..)`). -/
def handle_winit_event (scale_factor : ℚ) (st : State) (event : Event) :
    State × List ExternalCall :=
  match event with
  | Event.Suspended => (st, [])
  | Event.Resumed =>
      ({ st with events := st.events ++ [EmbedderEvent.Idle] }, [])
  | Event.UserEvent =>
      ({ st with events := st.events ++ [EmbedderEvent.Idle] }, [])
  | Event.WindowEvent we =>
    match we with
    | WindowEvent.RedrawRequested =>
      match st.servo with
      | none => (st, [])
      | some _ =>
          ({ st with events := st.events ++ [EmbedderEvent.Idle] },
           [ExternalCall.Recomposite, ExternalCall.Present])
    | WindowEvent.Resized w h =>
        ({ st with events := st.events ++ [EmbedderEvent.Resize] },
         [ExternalCall.WebViewResize (Int.ofNat w) (Int.ofNat h)])
    | WindowEvent.CursorMoved position =>
        ({ st with
            mouse_position := position
            events := st.events ++ [EmbedderEvent.MouseWindowMoveEventClass position] },
         [])
    | WindowEvent.MouseInput state button =>
      match winitButtonToServo button with
      | none => (st, [])
      | some b =>
        let position := st.mouse_position
        match state with
        | ElementState.Pressed =>
            ({ st with events := st.events ++
                [EmbedderEvent.MouseWindowEventClass
                  (MouseWindowEvent.MouseDown b position)] }, [])
        | ElementState.Released =>
            ({ st with events := st.events ++
                [EmbedderEvent.MouseWindowEventClass
                  (MouseWindowEvent.MouseUp b position),
                 EmbedderEvent.MouseWindowEventClass
                  (MouseWindowEvent.Click b position)] }, [])
    | WindowEvent.TouchpadMagnify delta =>
        ({ st with events := st.events ++ [EmbedderEvent.Zoom (1 + delta)] }, [])
    | WindowEvent.MouseWheel delta phase =>
      let xym := wheelDeltaOf scale_factor delta
      let x := xym.1
      let y := xym.2.1
      let mode := xym.2.2
      let wheelEvent := EmbedderEvent.Wheel
        { x := x, y := y, z := 0, mode := mode } st.mouse_position
      let x2 := if |y| ≥ |x| then 0 else x
      let y2 := if |y| ≥ |x| then y else 0
      let scrollEvent := EmbedderEvent.Scroll
        (ScrollLocation.Delta x2 y2)
        ⟨ratTrunc st.mouse_position.x, ratTrunc st.mouse_position.y⟩
        (touchPhaseToType phase)
      ({ st with events := st.events ++ [wheelEvent, scrollEvent] }, [])
    | WindowEvent.CloseRequested =>
        ({ st with events := st.events ++ [EmbedderEvent.Quit] }, [])
    | WindowEvent.Unsupported => (st, [])
  | Event.Unsupported => (st, [])

/-- One step of the `for_each` over `servo.get_events()` in
`handle_servo_messages`: the accumulator carries the state, the local
`need_present` flag and the trace of external calls so far.  Each message
comes paired with the `Option<BrowserId>` the engine attached to it. -/
def handleMsg (acc : State × Bool × List ExternalCall)
    (msg : Option Nat × EmbedderMsg) : State × Bool × List ExternalCall :=
  let st := acc.1
  let needPresent := acc.2.1
  let calls := acc.2.2
  match msg.2 with
  | EmbedderMsg.BrowserCreated w =>
      ({ st with
          browser_id := if st.browser_id = none then some w else st.browser_id
          events := st.events ++ [EmbedderEvent.SelectBrowser w] },
       needPresent, calls)
  | EmbedderMsg.ReadyToPresent => (st, true, calls)
  | EmbedderMsg.LoadStart => ({ st with status := Status.LoadStart }, needPresent, calls)
  | EmbedderMsg.LoadComplete => ({ st with status := Status.LoadComplete }, needPresent, calls)
  | EmbedderMsg.SetCursor c =>
      (st, needPresent, calls ++ [ExternalCall.SetCursorIcon (cursorToIcon c)])
  | EmbedderMsg.AllowNavigationRequest pid =>
      if msg.1.isSome then
        ({ st with events := st.events ++
            [EmbedderEvent.AllowNavigationResponse pid true] },
         needPresent, calls)
      else
        (st, needPresent, calls)
  | EmbedderMsg.CloseBrowser =>
      ({ st with events := st.events ++ [EmbedderEvent.Quit] }, needPresent, calls)
  | EmbedderMsg.Shutdown => ({ st with status := Status.Shutdown }, needPresent, calls)
  | EmbedderMsg.Unsupported => (st, needPresent, calls)

/-- Embedding of `Yippee::handle_servo_messages` (src/src/app.rs lines 231-322).
`msgs` is the batch returned by `servo.get_events()`;
`handle_events_result` is the boolean returned by
`servo.handle_events(self.events.drain(..))`.  Returns early unchanged if
the engine handle is absent; otherwise processes each message, drains the
queue into a `HandleEvents` call, repaints/presents or requests a redraw,
and takes + deinits the engine handle when the status is `Shutdown`. -/
def handle_servo_messages (st : State) (msgs : List (Option Nat × EmbedderMsg))
    (handle_events_result : Bool) : State × List ExternalCall :=
  match st.servo with
  | none => (st, [])
  | some _ =>
    let folded := msgs.foldl handleMsg (st, false, [])
    let st1 := folded.1
    let needPresent := folded.2.1
    let msgCalls := folded.2.2
    let flushCalls :=
      if handle_events_result then
        [ExternalCall.RepaintSynchronously, ExternalCall.Present]
      else if needPresent then [ExternalCall.RequestRedraw]
      else []
    let st2 : State := { st1 with events := [] }
    if st2.status = Status.Shutdown then
      ({ st2 with servo := none },
       msgCalls ++ [ExternalCall.HandleEvents st1.events] ++ flushCalls
         ++ [ExternalCall.Deinit])
    else
      (st2, msgCalls ++ [ExternalCall.HandleEvents st1.events] ++ flushCalls)

/-- Embedding of `Yippee::shutdown` (src/src/app.rs lines 330-332): push a single `Quit`
embedder event. -/
def shutdown (st : State) : State :=
  { st with events := st.events ++ [EmbedderEvent.Quit] }

/-- Embedding of `Yippee::run` (src/src/app.rs lines 92-97): one pump iteration — set the
control flow, translate the winit event, consume the engine messages and
flush the queue, then return the status.  Result: final state, external-call
trace, returned `Status`. -/
def run (scale_factor : ℚ) (animating : Bool) (st : State) (event : Event)
    (msgs : List (Option Nat × EmbedderMsg)) (handle_events_result : Bool) :
    State × List ExternalCall × Status :=
  let flow := set_control_flow animating event
  let w := handle_winit_event scale_factor st event
  let s := handle_servo_messages w.1 msgs handle_events_result
  (s.1, ExternalCall.SetControlFlow flow :: (w.2 ++ s.2), s.1.status)

/-! ## Helper lemmas -/

/-- `handle_winit_event` never touches the engine handle. -/
theorem handle_winit_event_servo (scale : ℚ) (st : State) (e : Event) :
    ((handle_winit_event scale st e).1).servo = st.servo := by
  cases e with
  | WindowEvent we =>
    cases we with
    | RedrawRequested => cases h : st.servo <;> simp [handle_winit_event, h]
    | MouseInput s b =>
      cases hb : winitButtonToServo b with
      | none => simp [handle_winit_event, hb]
      | some sb => cases s <;> simp [handle_winit_event, hb]
    | Resized w h => rfl
    | CursorMoved p => rfl
    | TouchpadMagnify d => rfl
    | MouseWheel d p => rfl
    | CloseRequested => rfl
    | Unsupported => rfl
  | Suspended => rfl
  | Resumed => rfl
  | UserEvent => rfl
  | Unsupported => rfl

/-- `handle_winit_event` never touches the status. -/
theorem handle_winit_event_status (scale : ℚ) (st : State) (e : Event) :
    ((handle_winit_event scale st e).1).status = st.status := by
  cases e with
  | WindowEvent we =>
    cases we with
    | RedrawRequested => cases h : st.servo <;> simp [handle_winit_event, h]
    | MouseInput s b =>
      cases hb : winitButtonToServo b with
      | none => simp [handle_winit_event, hb]
      | some sb => cases s <;> simp [handle_winit_event, hb]
    | Resized w h => rfl
    | CursorMoved p => rfl
    | TouchpadMagnify d => rfl
    | MouseWheel d p => rfl
    | CloseRequested => rfl
    | Unsupported => rfl
  | Suspended => rfl
  | Resumed => rfl
  | UserEvent => rfl
  | Unsupported => rfl

/-- `handle_winit_event` never touches the browser id. -/
theorem handle_winit_event_browser (scale : ℚ) (st : State) (e : Event) :
    ((handle_winit_event scale st e).1).browser_id = st.browser_id := by
  cases e with
  | WindowEvent we =>
    cases we with
    | RedrawRequested => cases h : st.servo <;> simp [handle_winit_event, h]
    | MouseInput s b =>
      cases hb : winitButtonToServo b with
      | none => simp [handle_winit_event, hb]
      | some sb => cases s <;> simp [handle_winit_event, hb]
    | Resized w h => rfl
    | CursorMoved p => rfl
    | TouchpadMagnify d => rfl
    | MouseWheel d p => rfl
    | CloseRequested => rfl
    | Unsupported => rfl
  | Suspended => rfl
  | Resumed => rfl
  | UserEvent => rfl
  | Unsupported => rfl

/-- Processing one engine message never touches the engine handle. -/
theorem handleMsg_servo (acc : State × Bool × List ExternalCall)
    (m : Option Nat × EmbedderMsg) : ((handleMsg acc m).1).servo = acc.1.servo := by
  obtain ⟨w, m⟩ := m
  cases m with
  | AllowNavigationRequest pid => cases w <;> rfl
  | BrowserCreated i => rfl
  | ReadyToPresent => rfl
  | LoadStart => rfl
  | LoadComplete => rfl
  | SetCursor c => rfl
  | CloseBrowser => rfl
  | Shutdown => rfl
  | Unsupported => rfl

/-- Folding `handleMsg` over a message batch never touches the engine handle. -/
theorem foldl_handleMsg_servo (msgs : List (Option Nat × EmbedderMsg))
    (acc : State × Bool × List ExternalCall) :
    ((msgs.foldl handleMsg acc).1).servo = acc.1.servo := by
  induction msgs generalizing acc with
  | nil => rfl
  | cons m t ih => rw [List.foldl_cons, ih, handleMsg_servo]

/-- With the engine handle absent, `handle_servo_messages` is the identity
with no external calls. -/
theorem handle_servo_messages_servo_none (st : State)
    (msgs : List (Option Nat × EmbedderMsg)) (b : Bool) (h : st.servo = none) :
    handle_servo_messages st msgs b = (st, []) := by
  simp [handle_servo_messages, h]

/-- With the engine handle present, the state after `handle_servo_messages`
is the folded state with an emptied queue, the handle removed exactly when
the folded status is `Shutdown`. -/
theorem handle_servo_messages_servo_some (st : State)
    (msgs : List (Option Nat × EmbedderMsg)) (b : Bool) (u : Unit)
    (h : st.servo = some u) :
    (handle_servo_messages st msgs b).1 =
      (if ((msgs.foldl handleMsg (st, false, [])).1).status = Status.Shutdown then
        { (msgs.foldl handleMsg (st, false, [])).1 with events := [], servo := none }
      else
        { (msgs.foldl handleMsg (st, false, [])).1 with events := [] }) := by
  by_cases hs : ((msgs.foldl handleMsg (st, false, [])).1).status = Status.Shutdown
  · simp [handle_servo_messages, h, hs]
  · simp [handle_servo_messages, h, hs]

/-! ## Claims -/

/-- C1 (counterexample): the pending event queue is NOT always empty when the
pump returns.  Starting from the initial state, one iteration in which the
engine reports `Shutdown` removes the engine handle; in the next iteration a
`Resumed` event queues an `Idle` event, and `handle_servo_messages` returns
early (no engine), leaving the queue non-empty at the end of that pump. -/
theorem C1_queue_not_drained_counterexample :
    ((run 1 true
        ((run 1 true initState Event.Unsupported
            [(none, EmbedderMsg.Shutdown)] false).1)
        Event.Resumed [] false).1).events ≠ [] := by decide

/-- C1 (amended): in every pump iteration in which the engine handle is
present when `handle_servo_messages` begins, the queue is empty when the
call returns, and the queued events (after message processing) are forwarded
to the engine through `servo.handle_events` in that same iteration. -/
theorem C1_queue_drained_when_engine_present (st : State)
    (msgs : List (Option Nat × EmbedderMsg)) (b : Bool) (h : st.servo.isSome) :
    ((handle_servo_messages st msgs b).1).events = [] ∧
    ExternalCall.HandleEvents (((msgs.foldl handleMsg (st, false, [])).1).events)
      ∈ (handle_servo_messages st msgs b).2 := by
  obtain ⟨u, hu⟩ : ∃ u, st.servo = some u := Option.isSome_iff_exists.mp h
  constructor
  · rw [handle_servo_messages_servo_some st msgs b u hu]
    split <;> rfl
  · simp only [handle_servo_messages, hu]
    split <;> simp

/-- C1 witness: concrete instance of the amended drain property. -/
theorem C1_queue_drained_witness :
    ((handle_servo_messages initState [] false).1).events = [] ∧
    ExternalCall.HandleEvents
        ((([] : List (Option Nat × EmbedderMsg)).foldl handleMsg
            (initState, false, [])).1).events
      ∈ (handle_servo_messages initState [] false).2 :=
  C1_queue_drained_when_engine_present initState [] false (by decide)

/-- C2: when a pump iteration ends with status `Shutdown`, the engine handle
is `none` at the end of that iteration; and once the handle is `none` it
stays `none` in every later iteration. -/
theorem C2_engine_absent_after_shutdown (scale : ℚ) (animating : Bool)
    (st : State) (e : Event) (msgs : List (Option Nat × EmbedderMsg)) (b : Bool) :
    ((run scale animating st e msgs b).1.status = Status.Shutdown →
      (run scale animating st e msgs b).1.servo = none) ∧
    (st.servo = none → (run scale animating st e msgs b).1.servo = none) := by
  have hrun : (run scale animating st e msgs b).1 =
      (handle_servo_messages (handle_winit_event scale st e).1 msgs b).1 := rfl
  constructor
  · intro hs
    rw [hrun] at hs ⊢
    cases h : ((handle_winit_event scale st e).1).servo with
    | none =>
      rw [handle_servo_messages_servo_none (handle_winit_event scale st e).1 msgs b h]
      exact h
    | some u =>
      rw [handle_servo_messages_servo_some (handle_winit_event scale st e).1 msgs b u h]
        at hs ⊢
      by_cases hf : ((msgs.foldl handleMsg
          ((handle_winit_event scale st e).1, false, [])).1).status = Status.Shutdown
      · simp [hf]
      · simp [hf] at hs
  · intro h0
    have h1 : ((handle_winit_event scale st e).1).servo = none := by
      rw [handle_winit_event_servo]; exact h0
    rw [hrun,
      handle_servo_messages_servo_none (handle_winit_event scale st e).1 msgs b h1]
    exact h1

/-- C2 witness: a pump iteration in which the engine reports `Shutdown` ends
with the engine handle absent. -/
theorem C2_engine_absent_witness :
    (run 1 true initState Event.Unsupported
        [(none, EmbedderMsg.Shutdown)] false).1.servo = none :=
  (C2_engine_absent_after_shutdown 1 true initState Event.Unsupported
      [(none, EmbedderMsg.Shutdown)] false).1 (by decide)

/-- C3: the native-to-engine translation table — `CloseRequested` appends
exactly one `Quit`; `Resized` appends exactly one `Resize`; `CursorMoved`
stores the new pointer position and appends exactly one
`MouseWindowMoveEventClass` carrying it; `Resumed` and the user wake event
each append exactly one `Idle`; and the engine's `CloseBrowser` message
appends exactly one `Quit`. -/
theorem C3_translation_table (scale : ℚ) (st : State) (p : PhysicalPosition)
    (w h : Nat) (wid : Option Nat) (np : Bool) (cs : List ExternalCall) :
    (handle_winit_event scale st (Event.WindowEvent WindowEvent.CloseRequested)).1
      = { st with events := st.events ++ [EmbedderEvent.Quit] } ∧
    (handle_winit_event scale st (Event.WindowEvent (WindowEvent.Resized w h))).1
      = { st with events := st.events ++ [EmbedderEvent.Resize] } ∧
    (handle_winit_event scale st (Event.WindowEvent (WindowEvent.CursorMoved p))).1
      = { st with
            mouse_position := p
            events := st.events ++ [EmbedderEvent.MouseWindowMoveEventClass p] } ∧
    (handle_winit_event scale st Event.Resumed).1
      = { st with events := st.events ++ [EmbedderEvent.Idle] } ∧
    (handle_winit_event scale st Event.UserEvent).1
      = { st with events := st.events ++ [EmbedderEvent.Idle] } ∧
    handleMsg (st, np, cs) (wid, EmbedderMsg.CloseBrowser)
      = ({ st with events := st.events ++ [EmbedderEvent.Quit] }, np, cs) :=
  ⟨rfl, rfl, rfl, rfl, rfl, rfl⟩

/-- C4: unsupported inputs are ignored with no state change — an unsupported
top-level event, an unsupported window event, a mouse input with an
unsupported button, and an unhandled engine message all leave the adapter
state exactly as it was (and make no external calls). -/
theorem C4_unsupported_ignored (scale : ℚ) (st : State) (s : ElementState)
    (btn : WinitMouseButton) (wid : Option Nat) (np : Bool)
    (cs : List ExternalCall) :
    handle_winit_event scale st Event.Unsupported = (st, []) ∧
    handle_winit_event scale st (Event.WindowEvent WindowEvent.Unsupported)
      = (st, []) ∧
    (winitButtonToServo btn = none →
      handle_winit_event scale st
        (Event.WindowEvent (WindowEvent.MouseInput s btn)) = (st, [])) ∧
    handleMsg (st, np, cs) (wid, EmbedderMsg.Unsupported) = (st, np, cs) := by
  refine ⟨rfl, rfl, ?_, rfl⟩
  intro hb
  simp [handle_winit_event, hb]

/-- C4 witness: the `Back` mouse button is ignored without state change. -/
theorem C4_unsupported_ignored_witness :
    handle_winit_event 1 initState
      (Event.WindowEvent
        (WindowEvent.MouseInput ElementState.Pressed WinitMouseButton.Back))
      = (initState, []) :=
  (C4_unsupported_ignored 1 initState ElementState.Pressed WinitMouseButton.Back
      none false []).2.2.1 (by decide)

/-- C5: `shutdown` appends exactly one `Quit` event and changes nothing
else; the engine handle is removed by `handle_servo_messages` exactly when
the handle was already absent or the engine's messages drove the status to
`Shutdown`. -/
theorem C5_shutdown_only_queues_quit (st : State)
    (msgs : List (Option Nat × EmbedderMsg)) (b : Bool) :
    shutdown st = { st with events := st.events ++ [EmbedderEvent.Quit] } ∧
    (shutdown st).servo = st.servo ∧
    (shutdown st).status = st.status ∧
    (shutdown st).browser_id = st.browser_id ∧
    (shutdown st).mouse_position = st.mouse_position ∧
    ((handle_servo_messages st msgs b).1.servo = none ↔
      (st.servo = none ∨
        ((msgs.foldl handleMsg (st, false, [])).1).status = Status.Shutdown)) := by
  refine ⟨rfl, rfl, rfl, rfl, rfl, ?_⟩
  cases h : st.servo with
  | none =>
    rw [handle_servo_messages_servo_none st msgs b h]
    simp [h]
  | some u =>
    rw [handle_servo_messages_servo_some st msgs b u h]
    by_cases hf : ((msgs.foldl handleMsg (st, false, [])).1).status = Status.Shutdown
    · simp [hf]
    · simp [hf, foldl_handleMsg_servo, h]

/-- C6: `Status` has exactly the four pairwise-distinct variants `None`,
`LoadStart`, `LoadComplete` and `Shutdown`; the initial status is `None`;
the status changes only on the engine's `LoadStart`, `LoadComplete` and
`Shutdown` messages (to the same-named variant), and no native
window/input event ever modifies it. -/
theorem C6_status_lifecycle :
    (∀ s : Status, s = Status.None ∨ s = Status.LoadStart ∨
      s = Status.LoadComplete ∨ s = Status.Shutdown) ∧
    [Status.None, Status.LoadStart, Status.LoadComplete, Status.Shutdown].Nodup ∧
    initState.status = Status.None ∧
    (∀ (scale : ℚ) (st : State) (e : Event),
      ((handle_winit_event scale st e).1).status = st.status) ∧
    (∀ (acc : State × Bool × List ExternalCall) (wid : Option Nat),
      (handleMsg acc (wid, EmbedderMsg.LoadStart)).1.status = Status.LoadStart ∧
      (handleMsg acc (wid, EmbedderMsg.LoadComplete)).1.status = Status.LoadComplete ∧
      (handleMsg acc (wid, EmbedderMsg.Shutdown)).1.status = Status.Shutdown) ∧
    (∀ (acc : State × Bool × List ExternalCall) (wid : Option Nat) (m : EmbedderMsg),
      m ≠ EmbedderMsg.LoadStart → m ≠ EmbedderMsg.LoadComplete →
      m ≠ EmbedderMsg.Shutdown →
      (handleMsg acc (wid, m)).1.status = acc.1.status) := by
  refine ⟨?_, by decide, rfl, handle_winit_event_status, ?_, ?_⟩
  · intro s
    cases s
    · exact Or.inl rfl
    · exact Or.inr (Or.inl rfl)
    · exact Or.inr (Or.inr (Or.inl rfl))
    · exact Or.inr (Or.inr (Or.inr rfl))
  · intro acc wid
    exact ⟨rfl, rfl, rfl⟩
  · intro acc wid m h1 h2 h3
    cases m with
    | LoadStart => exact absurd rfl h1
    | LoadComplete => exact absurd rfl h2
    | Shutdown => exact absurd rfl h3
    | AllowNavigationRequest pid => cases wid <;> rfl
    | BrowserCreated w => rfl
    | ReadyToPresent => rfl
    | SetCursor c => rfl
    | CloseBrowser => rfl
    | Unsupported => rfl

/-- C6 witness: a handled message outside the three status-setting ones
(`ReadyToPresent`) leaves the status unchanged. -/
theorem C6_status_lifecycle_witness :
    (handleMsg (initState, false, []) (none, EmbedderMsg.ReadyToPresent)).1.status
      = (initState, false, ([] : List ExternalCall)).1.status :=
  C6_status_lifecycle.2.2.2.2.2 (initState, false, []) none
    EmbedderMsg.ReadyToPresent (by decide) (by decide) (by decide)

/-- C7: a pump iteration performs its steps in a fixed order — set the
control flow, translate the native event, consume the engine messages and
flush the queue — and returns the status of the state produced by that last
step. -/
theorem C7_run_fixed_order (scale : ℚ) (animating : Bool) (st : State)
    (e : Event) (msgs : List (Option Nat × EmbedderMsg)) (b : Bool) :
    run scale animating st e msgs b =
      ((handle_servo_messages (handle_winit_event scale st e).1 msgs b).1,
       ExternalCall.SetControlFlow (set_control_flow animating e) ::
         ((handle_winit_event scale st e).2 ++
          (handle_servo_messages (handle_winit_event scale st e).1 msgs b).2),
       (handle_servo_messages (handle_winit_event scale st e).1 msgs b).1.status) :=
  rfl

/-- C8: a supported `MouseWheel` event appends exactly two embedder events —
a `Wheel` event carrying the full computed (x, y) delta at the last known
pointer position, then a `Scroll` event keeping only the dominant axis
(x zeroed when `|y| ≥ |x|`, else y zeroed), so the scroll delta never has
two non-zero axes. -/
theorem C8_wheel_dominant_axis (scale : ℚ) (st : State)
    (delta : MouseScrollDelta) (phase : TouchPhase) :
    (handle_winit_event scale st
        (Event.WindowEvent (WindowEvent.MouseWheel delta phase))).1
      = { st with events := st.events ++
          [EmbedderEvent.Wheel
            { x := (wheelDeltaOf scale delta).1
              y := (wheelDeltaOf scale delta).2.1
              z := 0
              mode := (wheelDeltaOf scale delta).2.2 } st.mouse_position,
           EmbedderEvent.Scroll
            (ScrollLocation.Delta
              (if |(wheelDeltaOf scale delta).2.1| ≥ |(wheelDeltaOf scale delta).1|
               then 0 else (wheelDeltaOf scale delta).1)
              (if |(wheelDeltaOf scale delta).2.1| ≥ |(wheelDeltaOf scale delta).1|
               then (wheelDeltaOf scale delta).2.1 else 0))
            ⟨ratTrunc st.mouse_position.x, ratTrunc st.mouse_position.y⟩
            (touchPhaseToType phase)] } ∧
    ((if |(wheelDeltaOf scale delta).2.1| ≥ |(wheelDeltaOf scale delta).1|
      then (0 : ℚ) else (wheelDeltaOf scale delta).1) = 0 ∨
     (if |(wheelDeltaOf scale delta).2.1| ≥ |(wheelDeltaOf scale delta).1|
      then (wheelDeltaOf scale delta).2.1 else (0 : ℚ)) = 0) := by
  constructor
  · rfl
  · by_cases hc : |(wheelDeltaOf scale delta).2.1| ≥ |(wheelDeltaOf scale delta).1|
    · exact Or.inl (if_pos hc)
    · exact Or.inr (if_neg hc)

/-- C9: a `MouseInput` with a supported button appends exactly one
`MouseDown` at the last known pointer position when pressed, and exactly
`MouseUp` followed by a synthesized `Click` — both at that same position —
when released. -/
theorem C9_mouse_input_click (scale : ℚ) (st : State) (btn : WinitMouseButton)
    (b : ServoMouseButton) (hb : winitButtonToServo btn = some b) :
    (handle_winit_event scale st
        (Event.WindowEvent (WindowEvent.MouseInput ElementState.Pressed btn))).1
      = { st with events := st.events ++
          [EmbedderEvent.MouseWindowEventClass
            (MouseWindowEvent.MouseDown b st.mouse_position)] } ∧
    (handle_winit_event scale st
        (Event.WindowEvent (WindowEvent.MouseInput ElementState.Released btn))).1
      = { st with events := st.events ++
          [EmbedderEvent.MouseWindowEventClass
            (MouseWindowEvent.MouseUp b st.mouse_position),
           EmbedderEvent.MouseWindowEventClass
            (MouseWindowEvent.Click b st.mouse_position)] } := by
  constructor <;> simp [handle_winit_event, hb]

/-- C9 witness: pressing the left button queues one `MouseDown` at the
stored pointer position. -/
theorem C9_mouse_input_click_witness :
    (handle_winit_event 1 initState
        (Event.WindowEvent
          (WindowEvent.MouseInput ElementState.Pressed WinitMouseButton.Left))).1
      = { initState with events := initState.events ++
          [EmbedderEvent.MouseWindowEventClass
            (MouseWindowEvent.MouseDown ServoMouseButton.Left
              initState.mouse_position)] } :=
  (C9_mouse_input_click 1 initState WinitMouseButton.Left ServoMouseButton.Left
      rfl).1

/-- C10: the browser id starts as `none`, the first `BrowserCreated` message
sets it, no later message or native event ever changes a set id, and every
`BrowserCreated` message appends a `SelectBrowser` event for the id it
carries. -/
theorem C10_browser_id_write_once :
    initState.browser_id = none ∧
    (∀ (acc : State × Bool × List ExternalCall) (wid : Option Nat) (w : Nat),
      acc.1.browser_id = none →
      (handleMsg acc (wid, EmbedderMsg.BrowserCreated w)).1.browser_id = some w) ∧
    (∀ (acc : State × Bool × List ExternalCall) (m : Option Nat × EmbedderMsg)
      (i : Nat), acc.1.browser_id = some i →
      (handleMsg acc m).1.browser_id = some i) ∧
    (∀ (scale : ℚ) (st : State) (e : Event),
      ((handle_winit_event scale st e).1).browser_id = st.browser_id) ∧
    (∀ (acc : State × Bool × List ExternalCall) (wid : Option Nat) (w : Nat),
      (handleMsg acc (wid, EmbedderMsg.BrowserCreated w)).1.events
        = acc.1.events ++ [EmbedderEvent.SelectBrowser w]) := by
  refine ⟨rfl, ?_, ?_, handle_winit_event_browser, ?_⟩
  · intro acc wid w h
    simp [handleMsg, h]
  · intro acc m i h
    obtain ⟨wid, m⟩ := m
    cases m with
    | BrowserCreated w => simp [handleMsg, h]
    | AllowNavigationRequest pid => cases wid <;> simpa [handleMsg] using h
    | ReadyToPresent => exact h
    | LoadStart => exact h
    | LoadComplete => exact h
    | SetCursor c => exact h
    | CloseBrowser => exact h
    | Shutdown => exact h
    | Unsupported => exact h
  · intro acc wid w
    rfl

/-- C10 witness: the first `BrowserCreated` message sets the browser id. -/
theorem C10_browser_id_write_once_witness :
    (handleMsg (initState, false, [])
        (none, EmbedderMsg.BrowserCreated 5)).1.browser_id = some 5 :=
  C10_browser_id_write_once.2.1 (initState, false, []) none 5 (by decide)

end Yippee
